import Mathlib

/-!
Shallow embedding of the InfiniteDrill problem/answer generation engine.

Numbers are modelled as exact rationals (ℚ).  Every numeric value the source
manipulates in the fragments embedded here is an integer, a one- or
two-decimal value, or a small ratio of such values, all of which JavaScript
doubles represent exactly through the operations used (sums, products and
divisions of small integers, and `Math.round(x*10)/10`-style roundings), so
the rational semantics matches the floating-point semantics on the actual
parameter pools.

Randomness: the source draws from the ambient `Math.random()` (uniform on
[0,1)) sequentially.  We model a generator's random input as streams
`ℕ → ℚ` indexed by draw site (and, for retry loops, by attempt), which
represents the same nondeterminism; theorems quantify over all streams whose
values lie in [0,1), mirroring the contract of `Math.random()`.

`Array.from(new Set(xs))` is modelled by `jsDedup` (keep first occurrences),
`arr[Math.floor(r * arr.length)]` by `jsPick`, the random
select-without-replacement loops by `drainLoop`, and the Fisher-Yates
`shuffle` of the source by `jsShuffle`.
-/

namespace InfiniteDrill

/-- Stream of uniform draws: every value in [0,1), the contract of
JS `Math.random()`. -/
def InRange (rand : ℕ → ℚ) : Prop := ∀ n, 0 ≤ rand n ∧ rand n < 1

/-- `roundToOneDecimal` (beam, section and frame hooks):
`Math.round(value * 10) / 10`.  JS `Math.round` rounds half towards +∞,
which is Mathlib's `round` (`⌊x + 1/2⌋`). -/
def roundToOneDecimal (value : ℚ) : ℚ := (round (value * 10) : ℤ) / 10

/-- `roundToTwoDecimals` (buckling hook): `Math.round(x * 100) / 100`. -/
def roundToTwoDecimals (x : ℚ) : ℚ := (round (x * 100) : ℤ) / 100

/-- `roundToInteger` (section hook): `Math.round(value)`. -/
def roundToInteger (value : ℚ) : ℚ := (round value : ℤ)

/-- `isNiceOneDecimal` (part_005): `Math.abs(value - rounded) < 1e-6` for
`rounded = roundToOneDecimal(value)`. -/
def isNiceOneDecimal (value : ℚ) : Bool :=
  |value - roundToOneDecimal value| < 1 / 1000000

/-- `arr[Math.floor(r * arr.length)]` for one uniform draw `r`. -/
def jsPick (r : ℚ) (l : List α) (d : α) : α := l.getD (⌊r * l.length⌋).toNat d

theorem floorIdx_lt (r : ℚ) (h0 : 0 ≤ r) (h1 : r < 1) (n : ℕ) (hn : 0 < n) :
    (⌊r * (n : ℚ)⌋).toNat < n := by
  have hlt : r * (n : ℚ) < (n : ℚ) := by
    calc r * (n : ℚ) < 1 * (n : ℚ) := mul_lt_mul_of_pos_right h1 (by exact_mod_cast hn)
      _ = (n : ℚ) := one_mul _
  have : ⌊r * (n : ℚ)⌋ < (n : ℤ) := Int.floor_lt.mpr (by exact_mod_cast hlt)
  omega

theorem jsPick_mem (r : ℚ) (h0 : 0 ≤ r) (h1 : r < 1) (l : List α) (d : α)
    (hl : l ≠ []) : jsPick r l d ∈ l := by
  have hpos : 0 < l.length := List.length_pos.mpr hl
  have hidx := floorIdx_lt r h0 h1 l.length hpos
  rw [jsPick, List.getD_eq_getElem _ _ hidx]
  exact List.getElem_mem hidx

/-- Helper for `jsDedup`: skip elements already seen. -/
def jsDedupAux [DecidableEq α] (seen : List α) : List α → List α
  | [] => []
  | x :: xs => if x ∈ seen then jsDedupAux seen xs else x :: jsDedupAux (x :: seen) xs

/-- `Array.from(new Set(xs))`: deduplicate keeping first occurrences in
order, as a JS `Set` does. -/
def jsDedup [DecidableEq α] (l : List α) : List α := jsDedupAux [] l

/-- One swap `[result[i], result[j]] = [result[j], result[i]]` of the
source's `shuffle`, on lists. -/
def listSwap (l : List α) (i j : ℕ) (d : α) : List α :=
  (l.set i (l.getD j d)).set j (l.getD i d)

/-- Fisher-Yates loop body of the source's `shuffle`: at the step for index
`i+1` draw `j = Math.floor(r * (i+2))` and swap positions `i+1` and `j`. -/
def shuffleAux (rand : ℕ → ℚ) (d : α) : ℕ → List α → ℕ → List α
  | _, l, 0 => l
  | step, l, i + 1 =>
      shuffleAux rand d (step + 1)
        (listSwap l (i + 1) (⌊rand step * ((i : ℚ) + 2)⌋).toNat d) i

/-- The source's `shuffle`: Fisher-Yates with one uniform draw per step. -/
def jsShuffle (rand : ℕ → ℚ) (d : α) (l : List α) : List α :=
  shuffleAux rand d 0 l (l.length - 1)

/-- The random select-without-replacement loop shared by all the
`pickWrongChoices*` functions:
`while (result.length < count && uniq.length > 0) { splice random index }`.
`fuel` is an upper bound on the number of iterations; every call site passes
the pool length, which is exact since each iteration removes one element. -/
def drainLoop (rand : ℕ → ℚ) : ℕ → ℕ → List ℚ → List ℚ → ℕ → List ℚ
  | 0, _, chosen, _, _ => chosen
  | fuel + 1, step, chosen, pool, count =>
      if chosen.length < count ∧ pool ≠ [] then
        drainLoop rand fuel (step + 1)
          (chosen ++ [pool.getD (⌊rand step * (pool.length : ℚ)⌋).toNat 0])
          (pool.eraseIdx (⌊rand step * (pool.length : ℚ)⌋).toNat) count
      else chosen

theorem drainLoop_length (rand : ℕ → ℚ) (hr : InRange rand) :
    ∀ (fuel step : ℕ) (chosen pool : List ℚ) (count : ℕ),
      chosen.length ≤ count → pool.length ≤ fuel →
      (drainLoop rand fuel step chosen pool count).length =
        min count (chosen.length + pool.length) := by
  intro fuel
  induction fuel with
  | zero =>
    intro step chosen pool count hc hp
    have hnil : pool = [] := List.eq_nil_of_length_eq_zero (Nat.le_zero.mp hp)
    subst hnil
    simp only [drainLoop, List.length_nil, Nat.add_zero]
    omega
  | succ fuel ih =>
    intro step chosen pool count hc hp
    by_cases hcond : chosen.length < count ∧ pool ≠ []
    · rw [drainLoop, if_pos hcond]
      have hpl : 0 < pool.length := List.length_pos.mpr hcond.2
      have hidx : (⌊rand step * (pool.length : ℚ)⌋).toNat < pool.length :=
        floorIdx_lt _ (hr step).1 (hr step).2 _ hpl
      have herase : (pool.eraseIdx (⌊rand step * (pool.length : ℚ)⌋).toNat).length =
          pool.length - 1 := List.length_eraseIdx_of_lt hidx
      have hlen1 : (chosen ++ [pool.getD (⌊rand step * (pool.length : ℚ)⌋).toNat 0]).length ≤
          count := by
        simp only [List.length_append, List.length_cons, List.length_nil]
        omega
      have hlen2 : (pool.eraseIdx (⌊rand step * (pool.length : ℚ)⌋).toNat).length ≤ fuel := by
        rw [herase]; omega
      rw [ih (step + 1) _ _ count hlen1 hlen2]
      simp only [List.length_append, List.length_cons, List.length_nil, herase]
      omega
    · rw [drainLoop, if_neg hcond]
      push_neg at hcond
      by_cases hlt : chosen.length < count
      · have hnil : pool = [] := hcond hlt
        subst hnil
        simp only [List.length_nil, Nat.add_zero]
        omega
      · have hceq : chosen.length = count := by omega
        omega

theorem cons_getD_eraseIdx_perm (pool : List ℚ) (i : ℕ) (hi : i < pool.length) :
    List.Perm (pool.getD i 0 :: pool.eraseIdx i) pool := by
  induction pool generalizing i with
  | nil => simp at hi
  | cons y s ih =>
    cases i with
    | zero => simp
    | succ m =>
      have hm : m < s.length := by simpa using hi
      simp only [List.getD_cons_succ, List.eraseIdx_cons_succ]
      have h1 : List.Perm (s.getD m 0 :: y :: s.eraseIdx m) (y :: s.getD m 0 :: s.eraseIdx m) :=
        List.Perm.swap y _ _
      exact h1.trans (List.Perm.cons y (ih m hm))

theorem drainLoop_perm_of_le (rand : ℕ → ℚ) (hr : InRange rand) :
    ∀ (fuel step : ℕ) (chosen pool : List ℚ) (count : ℕ),
      chosen.length + pool.length ≤ count → pool.length ≤ fuel →
      List.Perm (drainLoop rand fuel step chosen pool count) (chosen ++ pool) := by
  intro fuel
  induction fuel with
  | zero =>
    intro step chosen pool count _ hp
    have hnil : pool = [] := List.eq_nil_of_length_eq_zero (Nat.le_zero.mp hp)
    subst hnil
    simp [drainLoop]
  | succ fuel ih =>
    intro step chosen pool count hle hp
    by_cases hcond : chosen.length < count ∧ pool ≠ []
    · rw [drainLoop, if_pos hcond]
      have hpl : 0 < pool.length := List.length_pos.mpr hcond.2
      have hidx : (⌊rand step * (pool.length : ℚ)⌋).toNat < pool.length :=
        floorIdx_lt _ (hr step).1 (hr step).2 _ hpl
      have herase : (pool.eraseIdx (⌊rand step * (pool.length : ℚ)⌋).toNat).length =
          pool.length - 1 := List.length_eraseIdx_of_lt hidx
      have step1 := ih (step + 1)
        (chosen ++ [pool.getD (⌊rand step * (pool.length : ℚ)⌋).toNat 0])
        (pool.eraseIdx (⌊rand step * (pool.length : ℚ)⌋).toNat) count
        (by simp only [List.length_append, List.length_cons, List.length_nil, herase]; omega)
        (by rw [herase]; omega)
      refine step1.trans ?_
      have hassoc : List.Perm
          ((chosen ++ [pool.getD (⌊rand step * (pool.length : ℚ)⌋).toNat 0]) ++
            pool.eraseIdx (⌊rand step * (pool.length : ℚ)⌋).toNat)
          (chosen ++ (pool.getD (⌊rand step * (pool.length : ℚ)⌋).toNat 0 ::
            pool.eraseIdx (⌊rand step * (pool.length : ℚ)⌋).toNat)) := by
        simp [List.append_assoc]
      exact hassoc.trans (List.Perm.append_left chosen (cons_getD_eraseIdx_perm pool _ hidx))
    · rw [drainLoop, if_neg hcond]
      push_neg at hcond
      by_cases hlt : chosen.length < count
      · have hnil : pool = [] := hcond hlt
        subst hnil
        simp
      · have hc0 : pool.length = 0 := by omega
        have hnil : pool = [] := List.eq_nil_of_length_eq_zero hc0
        subst hnil
        simp

/-- Difficulty tiers of the app (`Difficulty` in src/src/types). -/
inductive Difficulty
  | beginner
  | intermediate
  | advanced
  | mixed
deriving DecidableEq

/-- Targets of the simple-beam problems handled here (subset of
`ProblemTarget` in src/src/types used by the concentrated generators). -/
inductive ProblemTarget
  | M_max
  | Va
  | Vb
deriving DecidableEq

/-! ## Beam generators (src/unnamed/part_005) -/

namespace Beam

def L_VALUES : List ℚ := [4, 6, 8, 10]

def L_CANTILEVER : List ℚ := [2, 3, 4, 5]

def P_VALUES : List ℚ := [10, 20, 24, 30, 40, 48, 50, 60, 72, 80, 90, 100]

def ANSWER_TOLERANCE : ℚ := 1 / 100

/-- `A_CANTILEVER_BY_L`: cantilever load positions per span. -/
def A_CANTILEVER_BY_L : ℚ → List ℚ := fun L =>
  if L = 2 then [2]
  else if L = 3 then [2, 3]
  else if L = 4 then [2, 4]
  else if L = 5 then [2, 3, 4, 5]
  else []

/-- `A_BY_L`: simple-beam load positions (distance from left support) per span. -/
def A_BY_L : ℚ → List ℚ := fun L =>
  if L = 4 then [2]
  else if L = 6 then [2, 3, 4]
  else if L = 8 then [2, 4, 6]
  else if L = 10 then [2, 4, 5, 6, 8]
  else []

/-- `pickTargetSimple`: 15% Va, 15% Vb, 70% M_max. -/
def pickTargetSimple (r : ℚ) : ProblemTarget :=
  if r < 0.15 then .Va else if r < 0.3 then .Vb else .M_max

/-- `pickTargetCantilever`: 50% M_max, 50% Va. -/
def pickTargetCantilever (r : ℚ) : ProblemTarget :=
  if r < 0.5 then .M_max else .Va

/-- `isValidWrong` (part_005): positive and further than `ANSWER_TOLERANCE`
from the answer. -/
def isValidWrong (value answer : ℚ) : Bool :=
  decide (0 < value) && decide (ANSWER_TOLERANCE < |value - answer|)

/-- Step 1 of `pickWrongChoicesWithPriority`: round the priority list, keep
valid entries, and push first occurrences up to `count`. -/
def chosenFromPriority (priority : List ℚ) (answer : ℚ) (count : ℕ) : List ℚ :=
  (jsDedup ((priority.map roundToOneDecimal).filter (fun v => isValidWrong v answer))).take count

/-- Step 2 pool of `pickWrongChoicesWithPriority`: deduplicated other
candidates that are valid and not already chosen. -/
def othersAfterPriority (priority otherCandidates : List ℚ) (answer : ℚ)
    (count : ℕ) : List ℚ :=
  (jsDedup otherCandidates).filter
    (fun v => isValidWrong v answer && !decide (v ∈ chosenFromPriority priority answer count))

/-- State after step 2 of `pickWrongChoicesWithPriority`: random refill from
the other candidates. -/
def afterOthers (rand : ℕ → ℚ) (priority otherCandidates : List ℚ) (answer : ℚ)
    (count : ℕ) : List ℚ :=
  drainLoop rand (othersAfterPriority priority otherCandidates answer count).length 0
    (chosenFromPriority priority answer count)
    (othersAfterPriority priority otherCandidates answer count) count

/-- Step 3 fallback pool of `pickWrongChoicesWithPriority`:
`[r(answer+10), r(answer-10)]` filtered to valid, not-yet-chosen values. -/
def fallbackCandidates (answer : ℚ) (chosen : List ℚ) : List ℚ :=
  ([roundToOneDecimal (answer + 10), roundToOneDecimal (answer - 10)]).filter
    (fun v => isValidWrong v answer && !decide (v ∈ chosen))

/-- `pickWrongChoicesWithPriority` (part_005): drain the priority list in
order, refill at random from the other candidates, then pad from the
`answer±10` fallback pool; may return fewer than `count` values when
everything is exhausted (the source comments this case as rare).  The final
padding loop re-checks membership against values added within the loop;
since its two candidates differ by 20 after rounding, this equals taking a
prefix of the filtered fallback pool. -/
def pickWrongChoicesWithPriority (rand : ℕ → ℚ) (priority otherCandidates : List ℚ)
    (answer : ℚ) (count : ℕ) : List ℚ :=
  let chosen := afterOthers rand priority otherCandidates answer count
  if chosen.length < count then
    chosen ++ (fallbackCandidates answer chosen).take (count - chosen.length)
  else chosen

/-- `pickWrongChoices` (part_005): the priority list is empty. -/
def pickWrongChoices (rand : ℕ → ℚ) (candidates : List ℚ) (answer : ℚ)
    (count : ℕ) : List ℚ :=
  pickWrongChoicesWithPriority rand [] candidates answer count

/-- `getConcentratedMWrong`. -/
def getConcentratedMWrong (L P a b answer : ℚ) : List ℚ :=
  ([roundToOneDecimal ((P * a * b) / 1),
    roundToOneDecimal ((P * a) / L),
    roundToOneDecimal ((P * b) / L),
    roundToOneDecimal ((P * L) / 4),
    roundToOneDecimal ((P * L) / 2),
    roundToOneDecimal ((P * L) / 8),
    roundToOneDecimal (P * a),
    roundToOneDecimal (P * b),
    roundToOneDecimal (answer + 5),
    roundToOneDecimal (answer - 5),
    roundToOneDecimal (answer + 10),
    roundToOneDecimal (answer - 10),
    roundToOneDecimal (answer + 20),
    roundToOneDecimal (answer - 20)]).filter (fun v => isValidWrong v answer)

/-- `getConcentratedVaWrong`. -/
def getConcentratedVaWrong (L P a b answer : ℚ) : List ℚ :=
  ([roundToOneDecimal ((P * a) / L),
    roundToOneDecimal (P / 2),
    roundToOneDecimal ((P * a * b) / L),
    roundToOneDecimal P,
    roundToOneDecimal (answer + 5),
    roundToOneDecimal (answer - 5),
    roundToOneDecimal (answer + 10),
    roundToOneDecimal (answer - 10)]).filter (fun v => isValidWrong v answer)

/-- `getConcentratedVbWrong`. -/
def getConcentratedVbWrong (L P a b answer : ℚ) : List ℚ :=
  ([roundToOneDecimal ((P * b) / L),
    roundToOneDecimal (P / 2),
    roundToOneDecimal ((P * a * b) / L),
    roundToOneDecimal P,
    roundToOneDecimal (answer + 5),
    roundToOneDecimal (answer - 5),
    roundToOneDecimal (answer + 10),
    roundToOneDecimal (answer - 10)]).filter (fun v => isValidWrong v answer)

/-- Generated beam problem.  Only the numeric fields the claims are about
are modelled; the explanation text and the display-hint fields of the source
record are omitted. -/
structure BeamProblem where
  L : ℚ
  a : ℚ
  b : ℚ
  P : ℚ
  target : ProblemTarget
  answer : ℚ
  choices : List ℚ
deriving DecidableEq

/-- The exact quantity whose one-decimal-clean property `generateConcentrated`
checks before accepting a draw (lines 421-425 of the source). -/
def concentratedRaw (target : ProblemTarget) (P L a b : ℚ) : ℚ :=
  match target with
  | .M_max => (P * a * b) / L
  | .Va => (P * b) / L
  | .Vb => (P * a) / L

/-- The `a` selection of one `generateConcentrated` attempt.  Draw site 1 is
the 70/30 eccentric-vs-centre coin, sites 2/3 the picks from the eccentric
and centre option lists (the intermediate/advanced branch draws once, here
at site 2). -/
def concentratedA (rand : ℕ → ℚ) (difficulty : Option Difficulty) (L : ℚ) : ℚ :=
  let aOptions := A_BY_L L
  let centerOptions := aOptions.filter (fun x => decide (x = L / 2))
  let eccentricOptions := aOptions.filter (fun x => decide (x ≠ L / 2))
  match difficulty with
  | some .beginner => L / 2
  | some .intermediate =>
      jsPick (rand 2) (if eccentricOptions ≠ [] then eccentricOptions else centerOptions) 0
  | some .advanced =>
      jsPick (rand 2) (if eccentricOptions ≠ [] then eccentricOptions else centerOptions) 0
  | _ =>
      if eccentricOptions ≠ [] ∧ (centerOptions = [] ∨ 0.3 < rand 1) then
        jsPick (rand 2) eccentricOptions 0
      else jsPick (rand 3) centerOptions 0

/-- The distractor selection of `generateConcentrated` for a given target
(the M_max branch passes a priority list, Va/Vb use plain `pickWrongChoices`). -/
def concentratedWrong (rand : ℕ → ℚ) (target : ProblemTarget)
    (P L a b answer : ℚ) : List ℚ :=
  match target with
  | .M_max =>
      pickWrongChoicesWithPriority (fun n => rand (6 + n))
        [roundToOneDecimal ((P * L) / 4), roundToOneDecimal ((P * b) / L),
         roundToOneDecimal ((P * a) / L), roundToOneDecimal P]
        (getConcentratedMWrong L P a b answer) answer 3
  | .Va =>
      pickWrongChoices (fun n => rand (6 + n)) (getConcentratedVaWrong L P a b answer) answer 3
  | .Vb =>
      pickWrongChoices (fun n => rand (6 + n)) (getConcentratedVbWrong L P a b answer) answer 3

/-- The span pick of a `generateConcentrated` draw (site 0). -/
def concentratedL (rand : ℕ → ℚ) : ℚ := jsPick (rand 0) L_VALUES 0

/-- The load pick of a `generateConcentrated` draw (site 4). -/
def concentratedP (rand : ℕ → ℚ) : ℚ := jsPick (rand 4) P_VALUES 0

/-- The exact target quantity of a `generateConcentrated` draw, fed both to
the answer rounding and to the one-decimal-clean acceptance check. -/
def concentratedRawOf (rand : ℕ → ℚ) (difficulty : Option Difficulty) : ℚ :=
  concentratedRaw (pickTargetSimple (rand 5)) (concentratedP rand) (concentratedL rand)
    (concentratedA rand difficulty (concentratedL rand))
    (concentratedL rand - concentratedA rand difficulty (concentratedL rand))

/-- The problem record built from one `generateConcentrated` draw. -/
def concentratedResult (rand : ℕ → ℚ) (difficulty : Option Difficulty) : BeamProblem :=
  { L := concentratedL rand
    a := concentratedA rand difficulty (concentratedL rand)
    b := concentratedL rand - concentratedA rand difficulty (concentratedL rand)
    P := concentratedP rand
    target := pickTargetSimple (rand 5)
    answer := roundToOneDecimal (concentratedRawOf rand difficulty)
    choices := jsShuffle (fun n => rand (50 + n)) 0
      (roundToOneDecimal (concentratedRawOf rand difficulty) ::
        concentratedWrong rand (pickTargetSimple (rand 5)) (concentratedP rand)
          (concentratedL rand) (concentratedA rand difficulty (concentratedL rand))
          (concentratedL rand - concentratedA rand difficulty (concentratedL rand))
          (roundToOneDecimal (concentratedRawOf rand difficulty))) }

/-- One iteration of the 10-attempt retry loop of `generateConcentrated`;
`none` when the one-decimal-clean acceptance check rejects the draw.  Draw
sites: 0 picks L, 1-3 select `a`, 4 picks P, 5 picks the target, 6+ drive
the distractor selection, 50+ the shuffle. -/
def concentratedAttempt (rand : ℕ → ℚ) (difficulty : Option Difficulty) :
    Option BeamProblem :=
  if isNiceOneDecimal (concentratedRawOf rand difficulty) then
    some (concentratedResult rand difficulty)
  else none

/-- The tail of `generateConcentrated` (lines 444-511): after 10 failed
attempts a fresh draw is accepted without the one-decimal-clean check.  Its
`a` selection always uses the 70/30 eccentric-vs-centre rule regardless of
difficulty, which is exactly the no-difficulty branch of `concentratedA`,
so the fallback record is `concentratedResult` at difficulty `none`. -/
def concentratedFallback (rand : ℕ → ℚ) : BeamProblem :=
  concentratedResult rand none

/-- The retry loop of `generateConcentrated`: up to 10 attempts, then the
unchecked fallback draw.  `rand i` is the stream of attempt `i` (the
fallback draw uses `rand 10`). -/
def concentratedLoop (rand : ℕ → ℕ → ℚ) (difficulty : Option Difficulty) :
    ℕ → BeamProblem
  | 0 => concentratedFallback (rand 10)
  | fuel + 1 =>
      match concentratedAttempt (rand (10 - (fuel + 1))) difficulty with
      | some p => p
      | none => concentratedLoop rand difficulty fuel

/-- `generateConcentrated` (part_005). -/
def generateConcentrated (rand : ℕ → ℕ → ℚ) (difficulty : Option Difficulty) :
    BeamProblem :=
  concentratedLoop rand difficulty 10

/-- The span pick of `generateCantileverConcentrated` (site 0). -/
def cantileverL (rand : ℕ → ℚ) : ℚ := jsPick (rand 0) L_CANTILEVER 0

/-- The `a` selection of `generateCantileverConcentrated`: the free end for
beginner, otherwise a pick from `A_CANTILEVER_BY_L` (site 1). -/
def cantileverA (rand : ℕ → ℚ) (difficulty : Option Difficulty) : ℚ :=
  match difficulty with
  | some .beginner => cantileverL rand
  | _ => jsPick (rand 1) (A_CANTILEVER_BY_L (cantileverL rand)) 0

/-- The answer of `generateCantileverConcentrated`: V = P for target Va,
|M_max| = P·a otherwise. -/
def cantileverAnswer (target : ProblemTarget) (P a : ℚ) : ℚ :=
  match target with
  | .Va => roundToOneDecimal P
  | _ => roundToOneDecimal (P * a)

/-- The distractor selection of `generateCantileverConcentrated` (the Va
branch passes the priority list [r(P·L), r(P/2)]). -/
def cantileverWrong (rand : ℕ → ℚ) (target : ProblemTarget)
    (P L a answer : ℚ) : List ℚ :=
  match target with
  | .Va =>
      pickWrongChoicesWithPriority (fun n => rand (4 + n))
        [roundToOneDecimal (P * L), roundToOneDecimal (P / 2)]
        (([roundToOneDecimal (P * L),
           roundToOneDecimal (P / 2),
           roundToOneDecimal (P * a),
           roundToOneDecimal ((P * a) / L),
           roundToOneDecimal (answer + 5),
           roundToOneDecimal (answer - 5),
           roundToOneDecimal (answer + 10)]).filter (fun v => isValidWrong v answer))
        answer 3
  | _ =>
      pickWrongChoices (fun n => rand (4 + n))
        (([roundToOneDecimal (P * L),
           roundToOneDecimal (P / 2),
           roundToOneDecimal P,
           roundToOneDecimal ((P * a) / L),
           roundToOneDecimal (answer + 5),
           roundToOneDecimal (answer - 5),
           roundToOneDecimal (answer + 10),
           roundToOneDecimal (answer - 10)]).filter (fun v => isValidWrong v answer))
        answer 3

/-- `generateCantileverConcentrated` (part_005).  Draw sites: 0 picks L,
1 picks `a` (beginner forces `a = L`), 2 picks P, 3 picks the target, 4+
drive the distractor selection, 50+ the shuffle. -/
def generateCantileverConcentrated (rand : ℕ → ℚ) (difficulty : Option Difficulty) :
    BeamProblem :=
  { L := cantileverL rand
    a := cantileverA rand difficulty
    b := cantileverL rand - cantileverA rand difficulty
    P := jsPick (rand 2) P_VALUES 0
    target := pickTargetCantilever (rand 3)
    answer := cantileverAnswer (pickTargetCantilever (rand 3)) (jsPick (rand 2) P_VALUES 0)
      (cantileverA rand difficulty)
    choices := jsShuffle (fun n => rand (50 + n)) 0
      (cantileverAnswer (pickTargetCantilever (rand 3)) (jsPick (rand 2) P_VALUES 0)
          (cantileverA rand difficulty) ::
        cantileverWrong rand (pickTargetCantilever (rand 3)) (jsPick (rand 2) P_VALUES 0)
          (cantileverL rand) (cantileverA rand difficulty)
          (cantileverAnswer (pickTargetCantilever (rand 3)) (jsPick (rand 2) P_VALUES 0)
            (cantileverA rand difficulty))) }

def L_OVERHANG : List ℚ := [4, 6, 8]

def C_OVERHANG_BY_L : ℚ → List ℚ := fun L =>
  if L = 4 then [2, 3]
  else if L = 6 then [2, 3, 4]
  else if L = 8 then [2, 3, 4]
  else []

def A_OVERHANG_IN_SPAN_BY_L : ℚ → List ℚ := fun L =>
  if L = 4 then [2]
  else if L = 6 then [2, 3, 4]
  else if L = 8 then [2, 4, 6]
  else []

/-- Overhang problem data; `c` is the overhang length. -/
structure OverhangProblem where
  L : ℚ
  a : ℚ
  b : ℚ
  c : ℚ
  P : ℚ
  target : ProblemTarget
  answer : ℚ
  choices : List ℚ
deriving DecidableEq

/-- Body of `generateOverhangConcentrated` (one call, before the
roundness-check-driven recursion).  Draw sites: 0 picks L, 1 picks c,
2 picks P, 3 is the in-span coin (`A_OVERHANG_IN_SPAN_BY_L[L]` is defined
for every L in `L_OVERHANG`, so the `&&` with it never changes the coin),
4 picks the in-span `a`, 5 and 6 pick the target, 7+ drive the distractor
selection, 50+ the shuffle. -/
def overhangBody (rand : ℕ → ℚ) : OverhangProblem :=
  let L := jsPick (rand 0) L_OVERHANG 0
  let cOptions := (C_OVERHANG_BY_L L).filter (fun c => decide (c < L))
  let c := jsPick (rand 1) cOptions 0
  let P := jsPick (rand 2) P_VALUES 0
  let loadInSpan := decide (rand 3 < 0.5)
  let a := if loadInSpan then jsPick (rand 4) (A_OVERHANG_IN_SPAN_BY_L L) 0 else L + c
  let Va := if loadInSpan then (P * (L - a)) / L else (P * c) / L
  let Vb := if loadInSpan then (P * a) / L else (P * (L + c)) / L
  let M_max := if loadInSpan then (P * a * (L - a)) / L else P * c
  let target : ProblemTarget :=
    if rand 5 < 1 / 3 then .Va else if rand 6 < 0.5 then .Vb else .M_max
  let answer := roundToOneDecimal (match target with
    | .Va => Va
    | .Vb => Vb
    | .M_max => M_max)
  let wrongCandidates :=
    ([roundToOneDecimal Va, roundToOneDecimal Vb, roundToOneDecimal M_max,
      roundToOneDecimal P, roundToOneDecimal ((P * L) / 4)]).filter
      (fun v => isValidWrong v answer)
  let chosenWrong := pickWrongChoices (fun n => rand (7 + n)) wrongCandidates answer 3
  { L := L, a := a, b := L - a, c := c, P := P, target := target, answer := answer,
    choices := jsShuffle (fun n => rand (50 + n)) 0 (answer :: chosenWrong) }

/-- `generateOverhangConcentrated` (part_005): retry-by-recursion guarded by
`!isNiceOneDecimal(answer)` on the already-rounded answer; `fuel` bounds the
recursion depth for the embedding, `rand i` being the stream of call `i`.
The `none` value signals fuel exhaustion and is never reached (see the C7
theorem): the guard is always true. -/
def generateOverhangConcentrated (rand : ℕ → ℕ → ℚ) : ℕ → Option OverhangProblem
  | 0 => none
  | fuel + 1 =>
      let p := overhangBody (rand 0)
      if isNiceOneDecimal p.answer then some p
      else generateOverhangConcentrated (fun i => rand (i + 1)) fuel

/-! ### Distributed-load beam generators (part_005) -/

end Beam

/-- The pool-builder fallback pattern shared by the numeric pool registries:
`return xs.length > 0 ? xs : [fallback]`. -/
def withFallback (l : List α) (fb : α) : List α :=
  if l.length > 0 then l else [fb]

/-! ## Section-property generators (src/src/hooks/useSectionProblem.ts) -/

namespace Sect

def B_VALUES_MM : List ℕ := [80, 100, 120, 140, 150, 160, 180, 200]

def H_VALUES_MM : List ℕ := [160, 180, 200, 220, 240, 260, 280, 300, 320, 340, 360]

/-- `SECTION_PAIRS`: (b, h) pairs with `b*h*h % 6 === 0 && b*h*h*h % 12 === 0`,
i.e. both Z = b·h²/6 and I = b·h³/12 integers, decided by modular arithmetic. -/
def SECTION_PAIRS : List (ℕ × ℕ) :=
  B_VALUES_MM.flatMap fun b =>
    (H_VALUES_MM.filter fun h => b * h * h % 6 == 0 && b * h * h * h % 12 == 0).map
      fun h => (b, h)

/-- The enumeration part of `HOLLOW_SECTION_QUADS` before its fallback:
outer B×H from fixed lists, inner b from 40 to B-40 and h from 80 to H-40 in
steps of 20, kept when I = (B·H³ − b·h³)/12 is a positive integer and
Z = 2I/H is an integer. -/
def hollowSectionQuadsRaw : List (ℕ × ℕ × ℕ × ℕ) :=
  ([120, 160, 200] : List ℕ).flatMap fun B =>
    ([200, 240, 280] : List ℕ).flatMap fun H =>
      (List.range' 40 ((B - 80) / 20 + 1) 20).flatMap fun b =>
        (List.range' 80 ((H - 120) / 20 + 1) 20).filterMap fun h =>
          if B ≤ b ∨ H ≤ h then none
          else
            let num : ℤ := (B : ℤ) * H * H * H - (b : ℤ) * h * h * h
            if num ≤ 0 ∨ num % 12 ≠ 0 then none
            else
              let I : ℤ := num / 12
              let Z : ℚ := (2 * (I : ℚ)) / (H : ℚ)
              if Z.isInt ∧ 0 < I then some (B, H, b, h) else none

/-- `HOLLOW_SECTION_QUADS`: the filtered enumeration, or the single
hardcoded quad (200, 200, 100, 100) when the filter leaves nothing. -/
def HOLLOW_SECTION_QUADS : List (ℕ × ℕ × ℕ × ℕ) :=
  withFallback hollowSectionQuadsRaw (200, 200, 100, 100)

/-- `isValidWrong` (section hook): positive and further than 1e-6 from the
answer. -/
def isValidWrong (value answer : ℚ) : Bool :=
  decide (0 < value) && decide ((1 : ℚ) / 1000000 < |value - answer|)

/-- `pickWrongChoices` (section hook): dedup, filter by `isValidWrong`,
then draw without replacement. -/
def pickWrongChoices (rand : ℕ → ℚ) (candidates : List ℚ) (answer : ℚ)
    (count : ℕ) : List ℚ :=
  drainLoop rand ((jsDedup candidates).filter fun v => isValidWrong v answer).length 0 []
    ((jsDedup candidates).filter fun v => isValidWrong v answer) count

/-- `L_SHAPE_I_CENTROID_TRIPLES`. -/
def L_SHAPE_I_CENTROID_TRIPLES : List (ℕ × ℕ × ℕ) := [(100, 100, 60), (60, 180, 40)]

/-- `computeLShapeICentroid`: composite moment of inertia about the vertical
centroid axis via the parallel-axis theorem. -/
def computeLShapeICentroid (b1 b2 h : ℚ) : ℚ :=
  let A1 := b1 * h
  let A2 := b2 * h
  let x1 := b1 / 2
  let x2 := b1 + b2 / 2
  let x_g := (A1 * x1 + A2 * x2) / (A1 + A2)
  let d1 := x_g - x1
  let d2 := x2 - x_g
  let I_g1 := (h * b1 * b1 * b1) / 12
  let I_g2 := (h * b2 * b2 * b2) / 12
  (I_g1 + A1 * d1 * d1) + (I_g2 + A2 * d2 * d2)

/-- Generated section problem; explanation text and display fields omitted. -/
structure SectionProblem where
  answer : ℚ
  choices : List ℚ
deriving DecidableEq

/-- Body of `generateLShapeICentroidProblem` (one call): pick a triple, and
return `none` exactly when the `!Number.isInteger(answer) || answer <= 0`
guard fires (which triggers the recursion in the source).  Draw site 0 picks
the triple, sites 1+ drive the distractor selection. -/
def lShapeICentroidBody (rand : ℕ → ℚ) : Option SectionProblem :=
  let t := jsPick (rand 0) L_SHAPE_I_CENTROID_TRIPLES (100, 100, 60)
  let b1 : ℚ := t.1
  let b2 : ℚ := t.2.1
  let h : ℚ := t.2.2
  let answer := computeLShapeICentroid b1 b2 h
  if ¬ answer.isInt ∨ answer ≤ 0 then none
  else
    let A1 := b1 * h
    let A2 := b2 * h
    let x1 := b1 / 2
    let x2 := b1 + b2 / 2
    let x_g := (A1 * x1 + A2 * x2) / (A1 + A2)
    let I_g1 := (h * b1 * b1 * b1) / 12
    let I_g2 := (h * b2 * b2 * b2) / 12
    let d1 := x_g - x1
    let d2 := x2 - x_g
    let I1 := I_g1 + A1 * d1 * d1
    let I2 := I_g2 + A2 * d2 * d2
    let wrongCandidates :=
      ([roundToInteger (I_g1 + I_g2), roundToInteger I1, roundToInteger I2,
        roundToInteger (answer / 2), roundToInteger (answer * 2),
        roundToInteger ((h * b1 * b1 * b1 + h * b2 * b2 * b2) / 12),
        roundToInteger (answer + 1000000),
        roundToInteger (answer - 1000000)]).filter
        (fun v => decide (0 < v) && isValidWrong v answer)
    let chosenWrong := pickWrongChoices (fun n => rand (1 + n)) wrongCandidates answer 3
    some { answer := answer,
           choices := List.insertionSort (fun x y => x ≤ y) (chosenWrong ++ [answer]) }

def P_VALUES_KN : List ℚ := [10, 20, 24, 30, 40, 48, 60]

/-- One bending-stress pool entry (display-only fields kept where they feed
the distractor formulas). -/
structure BendingCand where
  L : ℚ
  P : ℚ
  a : ℚ
  bSpan : ℚ
  Mmax : ℚ
  useCantilever : Bool
  bmm : ℕ
  hmm : ℕ
  Z : ℚ
  sigma : ℚ

/-- `generateLShapeICentroidProblem`: retry-by-recursion on the integrality
guard; `fuel` bounds the recursion depth for the embedding, `rand i` being
the stream of call `i`.  `none` signals fuel exhaustion and is never reached
(see the C7 theorem): the guard never fires on the two pool triples. -/
def generateLShapeICentroidProblem (rand : ℕ → ℕ → ℚ) : ℕ → Option SectionProblem
  | 0 => none
  | fuel + 1 =>
      match lShapeICentroidBody (rand 0) with
      | some p => some p
      | none => generateLShapeICentroidProblem (fun i => rand (i + 1)) fuel

end Sect

/-! ## Frame and buckling generators (src/src/hooks/useFrameProblem.ts and
the buckling hook) -/

namespace Frame

/-- The enumeration part of `FRAME_TRIPLES` before its fallback: [L, h, P]
with M = P·L/4 a positive integer. -/
def frameTriplesRaw : List (ℕ × ℕ × ℕ) :=
  ([4, 6, 8] : List ℕ).flatMap fun L =>
    ([2, 3, 4] : List ℕ).flatMap fun h =>
      ([20, 24, 30, 40] : List ℕ).filterMap fun (P : ℕ) =>
        let M : ℚ := ((P : ℚ) * (L : ℚ)) / 4
        if M.isInt ∧ 0 < M then some (L, h, P) else none

/-- `FRAME_TRIPLES`: the filtered enumeration, or the single hardcoded
triple [4, 3, 24] when the filter leaves nothing. -/
def FRAME_TRIPLES : List (ℕ × ℕ × ℕ) := withFallback frameTriplesRaw (4, 3, 24)

end Frame

namespace Buckling

/-- `BucklingSupportType` (src/src/types). -/
inductive BucklingSupportType
  | pinnedPinned
  | fixedFixed
  | fixedPinned
  | fixedFree
deriving DecidableEq

/-- `GAMMA`: effective-length factor per end condition. -/
def GAMMA : BucklingSupportType → ℚ
  | .pinnedPinned => 1
  | .fixedFixed => 0.5
  | .fixedPinned => 0.7
  | .fixedFree => 2

def SUPPORT_TYPES : List BucklingSupportType :=
  [.pinnedPinned, .fixedFixed, .fixedPinned, .fixedFree]

def L_VALUES_M : List ℚ := [2, 3, 4, 5]

/-- The answer computation of `generateBucklingLength`:
`roundToOneDecimal(gamma * L)`. -/
def bucklingLengthAnswer (supportType : BucklingSupportType) (L : ℚ) : ℚ :=
  roundToOneDecimal (GAMMA supportType * L)

/-- The answer computation of `generateBucklingLoad`: the source first
rounds γ² to two decimals, then rounds 1/γ² to two decimals. -/
def bucklingLoadAnswer (supportType : BucklingSupportType) : ℚ :=
  roundToTwoDecimals (1 / roundToTwoDecimals (GAMMA supportType * GAMMA supportType))

end Buckling

/-! ## Truss generators (the truss hook bundled in src/src/types/index.ts) -/

namespace Truss

def P_VALUES_KN : List ℚ := [20, 24, 30, 40]

def L_VALUES_M : List ℚ := [3, 4, 5]

/-- Generated truss problem; the explanation is modelled as its list of
lines (the source joins them with a newline). -/
structure TrussProblem where
  P : ℚ
  L : ℚ
  answer : ℚ
  choices : List ℚ
  explanation : List String

/-- `generateTrussCalculation`: triangular (45°) truss, bottom chord
N = P/2, tension.  Draw site 0 picks P, site 1 picks L, sites 2+ drive the
distractor selection. -/
def generateTrussCalculation (rand : ℕ → ℚ) : TrussProblem :=
  let P := jsPick (rand 0) P_VALUES_KN 0
  let L := jsPick (rand 1) L_VALUES_M 0
  let answer := P / 2
  let wrongCandidates :=
    ([0, -answer, P, -P, P / 4, -P / 4, (P * 3) / 4]).filter
      (fun v => decide ((1 : ℚ) / 100 < |v - answer|))
  let uniq := jsDedup wrongCandidates
  let chosenWrong := drainLoop (fun n => rand (2 + n)) uniq.length 0 [] uniq 3
  { P := P, L := L, answer := answer,
    choices := List.insertionSort (fun x y => x ≤ y) (chosenWrong ++ [answer]),
    explanation :=
      ["山形トラスで頂点に荷重 P が作用するとき、左右の支点反力はそれぞれ P/2 です。",
       "底辺（水平部材）の軸力は、節点の水平力のつり合いから求めます。",
       "斜材の傾きが 45°（縦1：横1）なので、鉛直成分と水平成分の力は同じ大きさになります。",
       "斜材が 45° のとき、斜材の水平成分が底辺と釣り合うため、底辺の軸力 N = (P/2) cot(45°) = P/2 となります。",
       "底辺は引張なので N_A = +" ++ toString answer ++ " kN です。",
       "※建築士試験の慣例に従い、引張力を正（+）、圧縮力を負（-）とします。"] }

end Truss

/-! ## Deflection-ratio generators (src/src/hooks/useDeflectionProblem.ts) -/

namespace Defl

end Defl

/-! ## Category/difficulty dispatcher (part_005, `generateRandomProblem`) -/

/-- The mixed-difficulty resolution at the head of `generateRandomProblem`:
for `mixed`, one uniform draw r gives beginner when r < 0.3, intermediate
when r < 0.8, advanced otherwise; other difficulties pass through. -/
def resolveMixed (difficulty : Difficulty) (r : ℚ) : Difficulty :=
  match difficulty with
  | .mixed => if r < 0.3 then .beginner else if r < 0.8 then .intermediate else .advanced
  | d => d

/-! ## Concrete random streams used to evaluate the generators -/

/-- The all-zero draw stream (every `Math.random()` call returns 0). -/
def zeroStream : ℕ → ℕ → ℚ := fun _ _ => 0

/-- A draw stream on which every retry attempt of `generateConcentrated`
samples L = 6, the eccentric branch, a = 2, P = 10 and target M_max, so that
the one-decimal-clean check fails 10 times and the fallback draw is
accepted. -/
def c4Stream : ℕ → ℕ → ℚ := fun _ n =>
  if n = 0 then 1 / 4 else if n = 1 then 1 / 2 else if n = 5 then 9 / 10 else 0

theorem mem_SECTION_PAIRS (b h : ℕ) :
    (b, h) ∈ Sect.SECTION_PAIRS ↔
      b ∈ Sect.B_VALUES_MM ∧ h ∈ Sect.H_VALUES_MM ∧
        6 ∣ b * h * h ∧ 12 ∣ b * h * h * h := by
  simp only [Sect.SECTION_PAIRS, List.mem_flatMap, List.mem_map, List.mem_filter,
    Bool.and_eq_true, beq_iff_eq, Prod.mk.injEq]
  constructor
  · rintro ⟨b', hb', h', ⟨hh', h6, h12⟩, rfl, rfl⟩
    exact ⟨hb', hh', Nat.dvd_of_mod_eq_zero h6, Nat.dvd_of_mod_eq_zero h12⟩
  · rintro ⟨hb, hh, h6, h12⟩
    exact ⟨b, hb, h, ⟨hh, Nat.mod_eq_zero_of_dvd h6,
      Nat.mod_eq_zero_of_dvd h12⟩, rfl, rfl⟩

/-- C3: the rectangular-section pool `SECTION_PAIRS` contains exactly the
(b, h) pairs from the fixed candidate lists for which Z = b·h²/6 and
I = b·h³/12 are integers, decided by divisibility of b·h² by 6 and of b·h³
by 12; (120, 180) is in the pool with Z = 648000, and (100, 200) is not
(its b·h² = 4,000,000 is not divisible by 6). -/
theorem C3_section_pool_exactness :
    (∀ b h : ℕ, (b, h) ∈ Sect.SECTION_PAIRS ↔
      b ∈ Sect.B_VALUES_MM ∧ h ∈ Sect.H_VALUES_MM ∧
        6 ∣ b * h * h ∧ 12 ∣ b * h * h * h) ∧
    (120, 180) ∈ Sect.SECTION_PAIRS ∧
    (100, 200) ∉ Sect.SECTION_PAIRS ∧
    120 * 180 * 180 / 6 = 648000 ∧
    ¬ (6 ∣ 100 * 200 * 200) := by
  refine ⟨mem_SECTION_PAIRS, ?_, ?_, by norm_num, by norm_num⟩
  · with_unfolding_all decide
  · with_unfolding_all decide

/-- C8: the pool builders guard against an empty filtered enumeration with
`xs.length > 0 ? xs : [fallback]`: when filtering yields zero tuples the
pool is the single hardcoded fallback tuple, the built pool is never empty
(no error path exists: `withFallback` is a total function), and both
`HOLLOW_SECTION_QUADS` and `FRAME_TRIPLES` are built with this guard around
their raw enumerations. -/
theorem C8_empty_pool_fallback :
    (∀ (α : Type) (l : List α) (fb : α), l = [] → withFallback l fb = [fb]) ∧
    (∀ (α : Type) (l : List α) (fb : α), withFallback l fb ≠ []) ∧
    Sect.HOLLOW_SECTION_QUADS =
      withFallback Sect.hollowSectionQuadsRaw (200, 200, 100, 100) ∧
    Frame.FRAME_TRIPLES = withFallback Frame.frameTriplesRaw (4, 3, 24) := by
  refine ⟨?_, ?_, rfl, rfl⟩
  · intro α l fb hl
    subst hl
    simp [withFallback]
  · intro α l fb
    rw [withFallback]
    by_cases hl : l.length > 0
    · rw [if_pos hl]
      exact List.ne_nil_of_length_pos hl
    · rw [if_neg hl]
      simp

theorem C8_empty_pool_fallback_witness :
    withFallback ([] : List ℕ) 7 = [7] ∧ withFallback [1, 2] 7 ≠ [] :=
  ⟨C8_empty_pool_fallback.1 ℕ [] 7 rfl, C8_empty_pool_fallback.2.1 ℕ [1, 2] 7⟩

/-- C9: `generateRandomProblem` resolves the `mixed` difficulty with one
uniform draw r in [0,1): r < 0.3 gives beginner (30%), 0.3 ≤ r < 0.8 gives
intermediate (50%), r ≥ 0.8 gives advanced (20%). -/
theorem C9_mixed_difficulty_resolution (r : ℚ) (h0 : 0 ≤ r) (h1 : r < 1) :
    (r < 0.3 → resolveMixed .mixed r = .beginner) ∧
    (0.3 ≤ r → r < 0.8 → resolveMixed .mixed r = .intermediate) ∧
    (0.8 ≤ r → resolveMixed .mixed r = .advanced) := by
  refine ⟨fun h => ?_, fun h h' => ?_, fun h => ?_⟩
  · simp [resolveMixed, if_pos h]
  · simp [resolveMixed, if_neg (not_lt.mpr h), if_pos h']
  · have ha : ¬ r < 0.3 := not_lt.mpr (by norm_num at h ⊢; linarith)
    have hb : ¬ r < 0.8 := not_lt.mpr h
    simp [resolveMixed, if_neg ha, if_neg hb]

theorem C9_mixed_difficulty_resolution_witness :
    resolveMixed .mixed (1 / 10) = .beginner ∧
    resolveMixed .mixed (1 / 2) = .intermediate ∧
    resolveMixed .mixed (9 / 10) = .advanced :=
  ⟨(C9_mixed_difficulty_resolution (1 / 10) (by norm_num) (by norm_num)).1 (by norm_num),
   (C9_mixed_difficulty_resolution (1 / 2) (by norm_num) (by norm_num)).2.1
     (by norm_num) (by norm_num),
   (C9_mixed_difficulty_resolution (9 / 10) (by norm_num) (by norm_num)).2.2 (by norm_num)⟩

/-- C5 counterexample: for the fixed-pinned end condition the generated load
ratio is the two-decimal rounding 2.04 = 51/25 (the source first rounds γ²
to 0.49, then rounds 1/0.49 ≈ 2.0408 to two decimals), which is not equal
to 1/γ² = 100/49. -/
theorem C5_counterexample :
    Buckling.bucklingLoadAnswer .fixedPinned = 51 / 25 ∧
    1 / (Buckling.GAMMA .fixedPinned * Buckling.GAMMA .fixedPinned) = 100 / 49 ∧
    Buckling.bucklingLoadAnswer .fixedPinned ≠
      1 / (Buckling.GAMMA .fixedPinned * Buckling.GAMMA .fixedPinned) := by
  refine ⟨?_, ?_, ?_⟩ <;> with_unfolding_all decide

/-- C5 (amended): the effective-length answer is l_k = γ·L exactly, with
γ = 1.0, 0.5, 0.7, 2.0 per end condition; the load-ratio answer is the
two-decimal rounding of 1/γ², which equals 1/γ² exactly for pinned-pinned
(1), fixed-fixed (4) and fixed-free (0.25) but is 2.04 ≠ 100/49 for
fixed-pinned; in particular for fixed-free and every pool L, l_k = 2·L and
the ratio is exactly 0.25. -/
theorem C5_buckling_amended :
    (Buckling.GAMMA .pinnedPinned = 1 ∧ Buckling.GAMMA .fixedFixed = 1 / 2 ∧
     Buckling.GAMMA .fixedPinned = 7 / 10 ∧ Buckling.GAMMA .fixedFree = 2) ∧
    (∀ st ∈ Buckling.SUPPORT_TYPES, ∀ L ∈ Buckling.L_VALUES_M,
      Buckling.bucklingLengthAnswer st L = Buckling.GAMMA st * L) ∧
    (∀ st ∈ [Buckling.BucklingSupportType.pinnedPinned,
        Buckling.BucklingSupportType.fixedFixed, Buckling.BucklingSupportType.fixedFree],
      Buckling.bucklingLoadAnswer st =
        1 / (Buckling.GAMMA st * Buckling.GAMMA st)) ∧
    Buckling.bucklingLoadAnswer .fixedPinned = 51 / 25 ∧
    (∀ L ∈ Buckling.L_VALUES_M,
      Buckling.bucklingLengthAnswer .fixedFree L = 2 * L) ∧
    Buckling.bucklingLoadAnswer .fixedFree = 1 / 4 := by
  with_unfolding_all decide

/-- C6: for every draw, the triangular-truss generator's answer is exactly
P/2, strictly positive, the explanation states that the bottom chord is in
tension (引張), and the explanation states the tension-positive /
compression-negative sign convention. -/
theorem C6_truss_half_load_tension (rand : ℕ → ℚ) (hr : InRange rand) :
    (Truss.generateTrussCalculation rand).answer =
      (Truss.generateTrussCalculation rand).P / 2 ∧
    0 < (Truss.generateTrussCalculation rand).answer ∧
    ("底辺は引張なので N_A = +" ++ toString (Truss.generateTrussCalculation rand).answer
        ++ " kN です。") ∈ (Truss.generateTrussCalculation rand).explanation ∧
    "※建築士試験の慣例に従い、引張力を正（+）、圧縮力を負（-）とします。" ∈
      (Truss.generateTrussCalculation rand).explanation := by
  have hP : (Truss.generateTrussCalculation rand).P ∈ Truss.P_VALUES_KN :=
    jsPick_mem _ (hr 0).1 (hr 0).2 _ _ (by simp [Truss.P_VALUES_KN])
  have hans : (Truss.generateTrussCalculation rand).answer =
      (Truss.generateTrussCalculation rand).P / 2 := rfl
  refine ⟨hans, ?_, ?_, ?_⟩
  · rw [hans]
    simp only [Truss.P_VALUES_KN, List.mem_cons, List.not_mem_nil, or_false,
      List.mem_singleton] at hP
    rcases hP with h | h | h | h <;> rw [h] <;> norm_num
  · have hexp : (Truss.generateTrussCalculation rand).explanation =
        ["山形トラスで頂点に荷重 P が作用するとき、左右の支点反力はそれぞれ P/2 です。",
         "底辺（水平部材）の軸力は、節点の水平力のつり合いから求めます。",
         "斜材の傾きが 45°（縦1：横1）なので、鉛直成分と水平成分の力は同じ大きさになります。",
         "斜材が 45° のとき、斜材の水平成分が底辺と釣り合うため、底辺の軸力 N = (P/2) cot(45°) = P/2 となります。",
         "底辺は引張なので N_A = +" ++ toString (Truss.generateTrussCalculation rand).answer
           ++ " kN です。",
         "※建築士試験の慣例に従い、引張力を正（+）、圧縮力を負（-）とします。"] := rfl
    rw [hexp]
    simp
  · have hexp : "※建築士試験の慣例に従い、引張力を正（+）、圧縮力を負（-）とします。" ∈
        (Truss.generateTrussCalculation rand).explanation := by
      have : "※建築士試験の慣例に従い、引張力を正（+）、圧縮力を負（-）とします。" ∈
          (Truss.generateTrussCalculation rand).explanation ↔ True := by
        constructor
        · intro _; trivial
        · intro _
          exact List.mem_cons.mpr (Or.inr (List.mem_cons.mpr (Or.inr (List.mem_cons.mpr
            (Or.inr (List.mem_cons.mpr (Or.inr (List.mem_cons.mpr (Or.inr
              (List.mem_cons.mpr (Or.inl rfl)))))))))))
      exact this.mpr trivial
    exact hexp

theorem C6_truss_half_load_tension_witness :
    (Truss.generateTrussCalculation (fun _ => 0)).answer =
      (Truss.generateTrussCalculation (fun _ => 0)).P / 2 ∧
    0 < (Truss.generateTrussCalculation (fun _ => 0)).answer :=
  ⟨(C6_truss_half_load_tension (fun _ => 0) (fun _ => by norm_num)).1,
   (C6_truss_half_load_tension (fun _ => 0) (fun _ => by norm_num)).2.1⟩

theorem beginner_accept_lemma :
    ∀ L ∈ Beam.L_VALUES, ∀ P ∈ Beam.P_VALUES,
      (isNiceOneDecimal (Beam.concentratedRaw .M_max P L (L / 2) (L - L / 2)) = true ∧
       isNiceOneDecimal (Beam.concentratedRaw .Va P L (L / 2) (L - L / 2)) = true ∧
       isNiceOneDecimal (Beam.concentratedRaw .Vb P L (L / 2) (L - L / 2)) = true) ∧
      roundToOneDecimal (Beam.concentratedRaw .Va P L (L / 2) (L - L / 2)) = P / 2 ∧
      roundToOneDecimal (Beam.concentratedRaw .Vb P L (L / 2) (L - L / 2)) = P / 2 := by
  with_unfolding_all decide

theorem concentratedA_beginner (rand : ℕ → ℚ) (L : ℚ) :
    Beam.concentratedA rand (some .beginner) L = L / 2 := rfl

theorem concentrated_beginner_accepts (rand : ℕ → ℚ) (hr : InRange rand) :
    Beam.concentratedAttempt rand (some .beginner) =
      some (Beam.concentratedResult rand (some .beginner)) := by
  have hL : Beam.concentratedL rand ∈ Beam.L_VALUES :=
    jsPick_mem _ (hr 0).1 (hr 0).2 _ _ (by simp [Beam.L_VALUES])
  have hP : Beam.concentratedP rand ∈ Beam.P_VALUES :=
    jsPick_mem _ (hr 4).1 (hr 4).2 _ _ (by simp [Beam.P_VALUES])
  have hacc := (beginner_accept_lemma _ hL _ hP).1
  have hnice : isNiceOneDecimal (Beam.concentratedRawOf rand (some .beginner)) = true := by
    rw [Beam.concentratedRawOf, concentratedA_beginner]
    cases Beam.pickTargetSimple (rand 5) with
    | M_max => exact hacc.1
    | Va => exact hacc.2.1
    | Vb => exact hacc.2.2
  rw [Beam.concentratedAttempt, if_pos hnice]

theorem concentratedLoop_succ (rand : ℕ → ℕ → ℚ) (d : Option Difficulty) (fuel : ℕ) :
    Beam.concentratedLoop rand d (fuel + 1) =
      (match Beam.concentratedAttempt (rand (10 - (fuel + 1))) d with
       | some p => p
       | none => Beam.concentratedLoop rand d fuel) := rfl

theorem concentrated_beginner_is_first_draw (rand : ℕ → ℕ → ℚ)
    (hr : ∀ i, InRange (rand i)) :
    Beam.generateConcentrated rand (some .beginner) =
      Beam.concentratedResult (rand 0) (some .beginner) := by
  have h0 := concentrated_beginner_accepts (rand 0) (hr 0)
  have hstep : Beam.generateConcentrated rand (some .beginner) =
      (match Beam.concentratedAttempt (rand 0) (some .beginner) with
       | some p => p
       | none => Beam.concentratedLoop rand (some .beginner) 9) := rfl
  rw [hstep, h0]

/-- C10: with beginner difficulty, every simple-beam concentrated-load
problem places the load exactly at midspan (a = L/2; the first retry
attempt always passes the acceptance check, so the eccentric fallback path
is unreachable), both reactions are P/2 (the answer for target Va or Vb),
and every cantilever concentrated-load problem places the load at the free
end (a = L). -/
theorem C10_beginner_positions :
    (∀ (rand : ℕ → ℕ → ℚ), (∀ i, InRange (rand i)) →
      (Beam.generateConcentrated rand (some .beginner)).a =
        (Beam.generateConcentrated rand (some .beginner)).L / 2 ∧
      ((Beam.generateConcentrated rand (some .beginner)).target = .Va →
        (Beam.generateConcentrated rand (some .beginner)).answer =
          (Beam.generateConcentrated rand (some .beginner)).P / 2) ∧
      ((Beam.generateConcentrated rand (some .beginner)).target = .Vb →
        (Beam.generateConcentrated rand (some .beginner)).answer =
          (Beam.generateConcentrated rand (some .beginner)).P / 2)) ∧
    (∀ (rand : ℕ → ℚ),
      (Beam.generateCantileverConcentrated rand (some .beginner)).a =
        (Beam.generateCantileverConcentrated rand (some .beginner)).L) := by
  constructor
  · intro rand hr
    have hgen := concentrated_beginner_is_first_draw rand hr
    have hL : Beam.concentratedL (rand 0) ∈ Beam.L_VALUES :=
      jsPick_mem _ (hr 0 0).1 (hr 0 0).2 _ _ (by simp [Beam.L_VALUES])
    have hP : Beam.concentratedP (rand 0) ∈ Beam.P_VALUES :=
      jsPick_mem _ (hr 0 4).1 (hr 0 4).2 _ _ (by simp [Beam.P_VALUES])
    have hround := (beginner_accept_lemma _ hL _ hP).2
    rw [hgen]
    refine ⟨rfl, ?_, ?_⟩
    · intro htarget
      have ht' : Beam.pickTargetSimple (rand 0 5) = ProblemTarget.Va := htarget
      have hans : (Beam.concentratedResult (rand 0) (some .beginner)).answer =
          roundToOneDecimal (Beam.concentratedRaw (Beam.pickTargetSimple (rand 0 5))
            (Beam.concentratedP (rand 0)) (Beam.concentratedL (rand 0))
            (Beam.concentratedL (rand 0) / 2)
            (Beam.concentratedL (rand 0) - Beam.concentratedL (rand 0) / 2)) := rfl
      rw [hans, ht']
      exact hround.1
    · intro htarget
      have ht' : Beam.pickTargetSimple (rand 0 5) = ProblemTarget.Vb := htarget
      have hans : (Beam.concentratedResult (rand 0) (some .beginner)).answer =
          roundToOneDecimal (Beam.concentratedRaw (Beam.pickTargetSimple (rand 0 5))
            (Beam.concentratedP (rand 0)) (Beam.concentratedL (rand 0))
            (Beam.concentratedL (rand 0) / 2)
            (Beam.concentratedL (rand 0) - Beam.concentratedL (rand 0) / 2)) := rfl
      rw [hans, ht']
      exact hround.2
  · intro rand
    exact rfl

theorem round_roundToOneDecimal (x : ℚ) :
    roundToOneDecimal (roundToOneDecimal x) = roundToOneDecimal x := by
  unfold roundToOneDecimal
  have h : ((round (x * 10) : ℤ) : ℚ) / 10 * 10 = ((round (x * 10) : ℤ) : ℚ) := by
    field_simp
  rw [h, round_intCast]

theorem isNice_roundToOneDecimal (x : ℚ) :
    isNiceOneDecimal (roundToOneDecimal x) = true := by
  simp only [isNiceOneDecimal, round_roundToOneDecimal, sub_self, abs_zero,
    decide_eq_true_eq]
  norm_num

theorem overhang_no_retry (rand : ℕ → ℕ → ℚ) (fuel : ℕ) :
    Beam.generateOverhangConcentrated rand (fuel + 1) =
      some (Beam.overhangBody (rand 0)) := by
  have hans : ∃ y, (Beam.overhangBody (rand 0)).answer = roundToOneDecimal y := ⟨_, rfl⟩
  have hnice : isNiceOneDecimal (Beam.overhangBody (rand 0)).answer = true := by
    obtain ⟨y, hy⟩ := hans
    rw [hy]
    exact isNice_roundToOneDecimal y
  have hstep : Beam.generateOverhangConcentrated rand (fuel + 1) =
      (if isNiceOneDecimal (Beam.overhangBody (rand 0)).answer then
        some (Beam.overhangBody (rand 0))
       else Beam.generateOverhangConcentrated (fun i => rand (i + 1)) fuel) := rfl
  rw [hstep, if_pos hnice]

theorem getD_mem_of_default_mem (l : List α) (n : ℕ) (d : α) (hd : d ∈ l) :
    l.getD n d ∈ l := by
  by_cases h : n < l.length
  · rw [List.getD_eq_getElem _ _ h]
    exact List.getElem_mem h
  · rw [List.getD_eq_default _ _ (le_of_not_lt h)]
    exact hd

theorem lShape_triple_int :
    ∀ t ∈ Sect.L_SHAPE_I_CENTROID_TRIPLES,
      (Sect.computeLShapeICentroid t.1 t.2.1 t.2.2).isInt = true ∧
      0 < Sect.computeLShapeICentroid (t.1 : ℚ) (t.2.1 : ℚ) (t.2.2 : ℚ) := by
  intro t ht
  simp only [Sect.L_SHAPE_I_CENTROID_TRIPLES, List.mem_cons, List.mem_singleton,
    List.not_mem_nil, or_false] at ht
  have hval1 : Sect.computeLShapeICentroid ((100 : ℕ) : ℚ) ((100 : ℕ) : ℚ) ((60 : ℕ) : ℚ) =
      40000000 := by
    norm_num [Sect.computeLShapeICentroid]
  have hval2 : Sect.computeLShapeICentroid ((60 : ℕ) : ℚ) ((180 : ℕ) : ℚ) ((40 : ℕ) : ℚ) =
      46080000 := by
    norm_num [Sect.computeLShapeICentroid]
  rcases ht with rfl | rfl
  · rw [hval1]
    refine ⟨?_, by norm_num⟩
    rw [show ((40000000 : ℚ)) = ((40000000 : ℤ) : ℚ) by norm_num]
    simp [Rat.isInt]
  · rw [hval2]
    refine ⟨?_, by norm_num⟩
    rw [show ((46080000 : ℚ)) = ((46080000 : ℤ) : ℚ) by norm_num]
    simp [Rat.isInt]

theorem lShape_body_isSome (rand : ℕ → ℚ) :
    ∃ p, Sect.lShapeICentroidBody rand = some p := by
  have hmem : jsPick (rand 0) Sect.L_SHAPE_I_CENTROID_TRIPLES (100, 100, 60) ∈
      Sect.L_SHAPE_I_CENTROID_TRIPLES :=
    getD_mem_of_default_mem _ _ _ (by simp [Sect.L_SHAPE_I_CENTROID_TRIPLES])
  obtain ⟨hint, hpos⟩ := lShape_triple_int _ hmem
  have hsome : (Sect.lShapeICentroidBody rand).isSome = true := by
    simp only [Sect.lShapeICentroidBody]
    rw [if_neg ?hguard]
    case hguard =>
      push_neg
      exact ⟨hint, hpos⟩
    rfl
  exact Option.isSome_iff_exists.mp hsome

theorem lShape_no_retry (rand : ℕ → ℕ → ℚ) (fuel : ℕ) :
    Sect.generateLShapeICentroidProblem rand (fuel + 1) =
      Sect.lShapeICentroidBody (rand 0) := by
  obtain ⟨p, hp⟩ := lShape_body_isSome (rand 0)
  have hstep : Sect.generateLShapeICentroidProblem rand (fuel + 1) =
      (match Sect.lShapeICentroidBody (rand 0) with
       | some p => some p
       | none => Sect.generateLShapeICentroidProblem (fun i => rand (i + 1)) fuel) := rfl
  rw [hstep, hp]

theorem concentratedLoop_all_fail (rand : ℕ → ℕ → ℚ) (d : Option Difficulty)
    (h : ∀ i, Beam.concentratedAttempt (rand i) d = none) :
    ∀ fuel, Beam.concentratedLoop rand d fuel = Beam.concentratedFallback (rand 10) := by
  intro fuel
  induction fuel with
  | zero => rfl
  | succ fuel ih =>
      rw [concentratedLoop_succ, h (10 - (fuel + 1))]
      show Beam.concentratedLoop rand d fuel = _
      exact ih

/-- C7: every generation call completes in bounded time.  The retry in
`generateOverhangConcentrated` never fires: its roundness guard is applied
to the already-rounded answer, and `isNiceOneDecimal ∘ roundToOneDecimal`
is constantly true, so the call returns its first draw for any fuel.  The
retry in `generateLShapeICentroidProblem` never fires either: both pool
triples give a positive integer I.  The 10-attempt loop of
`generateConcentrated` accepts the fresh fallback draw unconditionally when
every attempt's one-decimal-clean check fails. -/
theorem C7_generation_bounded :
    (∀ x : ℚ, isNiceOneDecimal (roundToOneDecimal x) = true) ∧
    (∀ (rand : ℕ → ℕ → ℚ) (fuel : ℕ),
      Beam.generateOverhangConcentrated rand (fuel + 1) =
        some (Beam.overhangBody (rand 0))) ∧
    (∀ t ∈ Sect.L_SHAPE_I_CENTROID_TRIPLES,
      (Sect.computeLShapeICentroid t.1 t.2.1 t.2.2).isInt = true ∧
      0 < Sect.computeLShapeICentroid (t.1 : ℚ) (t.2.1 : ℚ) (t.2.2 : ℚ)) ∧
    (∀ (rand : ℕ → ℕ → ℚ) (fuel : ℕ),
      Sect.generateLShapeICentroidProblem rand (fuel + 1) =
        Sect.lShapeICentroidBody (rand 0)) ∧
    (∀ (rand : ℕ → ℕ → ℚ) (d : Option Difficulty),
      (∀ i, Beam.concentratedAttempt (rand i) d = none) →
      Beam.generateConcentrated rand d = Beam.concentratedFallback (rand 10)) :=
  ⟨isNice_roundToOneDecimal, overhang_no_retry, lShape_triple_int, lShape_no_retry,
   fun rand d h => concentratedLoop_all_fail rand d h 10⟩

theorem C7_generation_bounded_witness :
    ((Sect.computeLShapeICentroid 100 100 60).isInt = true ∧
      0 < Sect.computeLShapeICentroid 100 100 60) ∧
    Beam.generateConcentrated c4Stream none = Beam.concentratedFallback (c4Stream 10) := by
  refine ⟨?_, ?_⟩
  · have h := C7_generation_bounded.2.2.1 (100, 100, 60)
      (by simp [Sect.L_SHAPE_I_CENTROID_TRIPLES])
    simpa using h
  · have hall : ∀ i, Beam.concentratedAttempt (c4Stream i) none = none := by
      intro i
      have hi : c4Stream i =
          fun n => if n = 0 then 1 / 4 else if n = 1 then 1 / 2 else
            if n = 5 then 9 / 10 else 0 := rfl
      rw [hi]
      with_unfolding_all decide
    exact C7_generation_bounded.2.2.2.2 c4Stream none hall

theorem C10_beginner_positions_witness :
    (Beam.generateConcentrated zeroStream (some .beginner)).a =
      (Beam.generateConcentrated zeroStream (some .beginner)).L / 2 :=
  (C10_beginner_positions.1 zeroStream (fun _ _ => by norm_num [zeroStream])).1

theorem chosenFromPriority_length_le (priority : List ℚ) (answer : ℚ) (count : ℕ) :
    (Beam.chosenFromPriority priority answer count).length ≤ count := by
  rw [Beam.chosenFromPriority, List.length_take]
  exact min_le_left _ _

theorem afterOthers_length (rand : ℕ → ℚ) (hr : InRange rand)
    (priority others : List ℚ) (answer : ℚ) (count : ℕ) :
    (Beam.afterOthers rand priority others answer count).length =
      min count ((Beam.chosenFromPriority priority answer count).length +
        (Beam.othersAfterPriority priority others answer count).length) :=
  drainLoop_length rand hr _ 0 _ _ count (chosenFromPriority_length_le _ _ _) le_rfl

/-- C1 counterexample: with beginner difficulty and an all-zero draw stream
the generator samples P = 10, L = 4, a = 2 with target Va (answer 5); every
misconception candidate collapses to 10 or 15 after filtering, the fallback
pool contributes nothing (15 is already chosen and 5 − 10 is not positive),
so only 2 wrong choices are produced and the assembled choices array has 3
entries, not 4. -/
theorem C1_counterexample :
    (Beam.generateConcentrated zeroStream (some .beginner)).choices.length = 3 ∧
    (Beam.generateConcentrated zeroStream (some .beginner)).P = 10 ∧
    (Beam.generateConcentrated zeroStream (some .beginner)).L = 4 ∧
    (Beam.generateConcentrated zeroStream (some .beginner)).target = .Va ∧
    (Beam.generateConcentrated zeroStream (some .beginner)).answer = 5 := by
  with_unfolding_all decide

/-- C1 (amended): the beam-hook selection step returns
min(count, available) wrong choices, where the available values are the
valid deduplicated priority entries, the valid deduplicated other
candidates, and the two `answer±10` fallback offsets that survive filtering
— so it returns exactly 3 whenever at least 3 such values exist, and fewer
in degenerate cases (see the counterexample); the section-hook
`pickWrongChoices` has no fallback step at all and returns
min(count, surviving candidates). -/
theorem C1_wrong_choice_count (rand : ℕ → ℚ) (hr : InRange rand)
    (priority others : List ℚ) (answer : ℚ) (count : ℕ) :
    ((Beam.pickWrongChoicesWithPriority rand priority others answer count).length =
      min count ((Beam.chosenFromPriority priority answer count).length +
        (Beam.othersAfterPriority priority others answer count).length +
        (Beam.fallbackCandidates answer
          (Beam.afterOthers rand priority others answer count)).length) ∧
     (Beam.pickWrongChoicesWithPriority rand priority others answer count).length ≤
       count) ∧
    (Sect.pickWrongChoices rand others answer count).length =
      min count ((jsDedup others).filter (fun v => Sect.isValidWrong v answer)).length := by
  have hmain := afterOthers_length rand hr priority others answer count
  constructor
  · simp only [Beam.pickWrongChoicesWithPriority]
    by_cases hlt : (Beam.afterOthers rand priority others answer count).length < count
    · rw [if_pos hlt]
      rw [List.length_append, List.length_take]
      omega
    · rw [if_neg hlt]
      omega
  · have h := drainLoop_length rand hr
      ((jsDedup others).filter (fun v => Sect.isValidWrong v answer)).length 0 []
      ((jsDedup others).filter (fun v => Sect.isValidWrong v answer)) count
      (by simp) le_rfl
    simpa [Sect.pickWrongChoices] using h

theorem roundToInteger_grid (x : ℚ) : ∃ k : ℤ, roundToInteger x = k * 1 :=
  ⟨round x, by rw [roundToInteger]; ring⟩

theorem grid_of_ratIsInt (v : ℚ) (h : v.isInt = true) : ∃ k : ℤ, v = k * 1 := by
  refine ⟨v.num, ?_⟩
  have hden : v.den = 1 := by simpa [Rat.isInt] using h
  have hnum : (v.num : ℚ) = v := by
    conv_rhs => rw [← Rat.num_div_den v]
    rw [hden]
    simp
  rw [mul_one, hnum]

theorem grid_one_mul2 (v : ℚ) (hv : ∃ k : ℤ, v = k * 1) : ∃ k : ℤ, v * 2 = k * 1 := by
  obtain ⟨k, rfl⟩ := hv
  exact ⟨2 * k, by push_cast; ring⟩

theorem bendingBase_grid (c : Sect.BendingCand) (hInt : c.sigma.isInt = true) :
    ∀ v ∈ ([roundToInteger ((c.Mmax * 1000000) /
        ((c.bmm : ℚ) * (c.hmm : ℚ) * (c.hmm : ℚ))),
      roundToInteger ((c.Mmax * 1000) / c.Z),
      roundToInteger ((c.Mmax * 1000000) /
        (((c.bmm : ℚ) * (c.hmm : ℚ) * (c.hmm : ℚ) * (c.hmm : ℚ)) / 12)),
      c.sigma * 2, roundToInteger (c.sigma / 2)] ++
      (if c.useCantilever then
        [roundToInteger ((((c.P * c.L) / 4) * 1000000) / c.Z)]
       else
        [roundToInteger ((((c.P * c.L) / 8) * 1000000) / c.Z),
         roundToInteger (((c.P * c.L) * 1000000) / c.Z)])),
      ∃ k : ℤ, v = k * 1 := by
  intro v hv
  rcases List.mem_append.mp hv with h | h
  · simp only [List.mem_cons, List.not_mem_nil, or_false] at h
    rcases h with rfl | rfl | rfl | rfl | rfl
    · exact roundToInteger_grid _
    · exact roundToInteger_grid _
    · exact roundToInteger_grid _
    · exact grid_one_mul2 _ (grid_of_ratIsInt _ hInt)
    · exact roundToInteger_grid _
  · split at h
    · simp only [List.mem_cons, List.not_mem_nil, or_false] at h
      rcases h with rfl
      exact roundToInteger_grid _
    · simp only [List.mem_cons, List.not_mem_nil, or_false] at h
      rcases h with rfl | rfl <;> exact roundToInteger_grid _

theorem C1_wrong_choice_count_witness :
    (Beam.pickWrongChoicesWithPriority (fun _ => 0) [] [1, 2, 3] 10 3).length ≤ 3 :=
  (C1_wrong_choice_count (fun _ => 0) (fun _ => by norm_num) [] [1, 2, 3] 10 3).1.2

/-- C4 counterexample: on a draw stream that samples P = 10, L = 6, a = 2
(all pool members) with target M_max on every attempt, the one-decimal-clean
check fails ten times, the fallback accepts the draw, and the generated
answer is 13.3, which is not M_max = P·a·b/L = 40/3. -/
theorem C4_counterexample :
    (Beam.generateConcentrated c4Stream none).target = .M_max ∧
    (Beam.generateConcentrated c4Stream none).P = 10 ∧
    (Beam.generateConcentrated c4Stream none).L = 6 ∧
    (Beam.generateConcentrated c4Stream none).a = 2 ∧
    (Beam.generateConcentrated c4Stream none).b = 4 ∧
    (Beam.generateConcentrated c4Stream none).answer = 133 / 10 ∧
    (10 : ℚ) * 2 * 4 / 6 ≠ 133 / 10 := by
  with_unfolding_all decide

theorem concentrated_nice_exact :
    ∀ L ∈ Beam.L_VALUES, ∀ a ∈ Beam.A_BY_L L, ∀ P ∈ Beam.P_VALUES,
      (isNiceOneDecimal (Beam.concentratedRaw .M_max P L a (L - a)) = true →
        roundToOneDecimal (Beam.concentratedRaw .M_max P L a (L - a)) =
          P * a * (L - a) / L) ∧
      (isNiceOneDecimal (Beam.concentratedRaw .Va P L a (L - a)) = true →
        roundToOneDecimal (Beam.concentratedRaw .Va P L a (L - a)) = P * (L - a) / L) ∧
      (isNiceOneDecimal (Beam.concentratedRaw .Vb P L a (L - a)) = true →
        roundToOneDecimal (Beam.concentratedRaw .Vb P L a (L - a)) = P * a / L) := by
  set_option maxRecDepth 4000 in with_unfolding_all decide

theorem concentratedA_mem (rand : ℕ → ℚ) (hr : InRange rand) (d : Option Difficulty)
    (L : ℚ) (hL : L ∈ Beam.L_VALUES) :
    Beam.concentratedA rand d L ∈ Beam.A_BY_L L := by
  have hhalf : L / 2 ∈ Beam.A_BY_L L := by
    fin_cases hL <;> norm_num [Beam.A_BY_L]
  have hcentmem : L / 2 ∈ (Beam.A_BY_L L).filter (fun x => decide (x = L / 2)) :=
    List.mem_filter.mpr ⟨hhalf, by simp⟩
  have hcent : (Beam.A_BY_L L).filter (fun x => decide (x = L / 2)) ≠ [] :=
    List.ne_nil_of_mem hcentmem
  have hIntAdv : ∀ r' : ℚ, 0 ≤ r' → r' < 1 →
      jsPick r' (if (Beam.A_BY_L L).filter (fun x => decide (x ≠ L / 2)) ≠ [] then
        (Beam.A_BY_L L).filter (fun x => decide (x ≠ L / 2)) else
        (Beam.A_BY_L L).filter (fun x => decide (x = L / 2))) 0 ∈ Beam.A_BY_L L := by
    intro r' h0 h1
    by_cases h : (Beam.A_BY_L L).filter (fun x => decide (x ≠ L / 2)) ≠ []
    · rw [if_pos h]
      exact (List.mem_filter.mp (jsPick_mem r' h0 h1 _ 0 h)).1
    · rw [if_neg h]
      exact (List.mem_filter.mp (jsPick_mem r' h0 h1 _ 0 hcent)).1
  match d with
  | some .beginner => exact hhalf
  | some .intermediate => exact hIntAdv (rand 2) (hr 2).1 (hr 2).2
  | some .advanced => exact hIntAdv (rand 2) (hr 2).1 (hr 2).2
  | some .mixed =>
      show (if (Beam.A_BY_L L).filter (fun x => decide (x ≠ L / 2)) ≠ [] ∧
          ((Beam.A_BY_L L).filter (fun x => decide (x = L / 2)) = [] ∨ 0.3 < rand 1) then
          jsPick (rand 2) ((Beam.A_BY_L L).filter (fun x => decide (x ≠ L / 2))) 0
        else jsPick (rand 3) ((Beam.A_BY_L L).filter (fun x => decide (x = L / 2))) 0) ∈
        Beam.A_BY_L L
      by_cases h : (Beam.A_BY_L L).filter (fun x => decide (x ≠ L / 2)) ≠ [] ∧
          ((Beam.A_BY_L L).filter (fun x => decide (x = L / 2)) = [] ∨ 0.3 < rand 1)
      · rw [if_pos h]
        exact (List.mem_filter.mp (jsPick_mem (rand 2) (hr 2).1 (hr 2).2 _ 0 h.1)).1
      · rw [if_neg h]
        exact (List.mem_filter.mp (jsPick_mem (rand 3) (hr 3).1 (hr 3).2 _ 0 hcent)).1
  | none =>
      show (if (Beam.A_BY_L L).filter (fun x => decide (x ≠ L / 2)) ≠ [] ∧
          ((Beam.A_BY_L L).filter (fun x => decide (x = L / 2)) = [] ∨ 0.3 < rand 1) then
          jsPick (rand 2) ((Beam.A_BY_L L).filter (fun x => decide (x ≠ L / 2))) 0
        else jsPick (rand 3) ((Beam.A_BY_L L).filter (fun x => decide (x = L / 2))) 0) ∈
        Beam.A_BY_L L
      by_cases h : (Beam.A_BY_L L).filter (fun x => decide (x ≠ L / 2)) ≠ [] ∧
          ((Beam.A_BY_L L).filter (fun x => decide (x = L / 2)) = [] ∨ 0.3 < rand 1)
      · rw [if_pos h]
        exact (List.mem_filter.mp (jsPick_mem (rand 2) (hr 2).1 (hr 2).2 _ 0 h.1)).1
      · rw [if_neg h]
        exact (List.mem_filter.mp (jsPick_mem (rand 3) (hr 3).1 (hr 3).2 _ 0 hcent)).1

/-- C4 (amended): the generator's answer is the one-decimal rounding of the
closed-form value; every draw accepted by the retry loop's clean check
yields exactly V_A = P·b/L, V_B = P·a/L, M_max = P·a·b/L (the retry-
exhausted fallback can instead return a rounded value, see the
counterexample); in particular P=40, L=8, a=2, b=6 gives M_max = 60,
V_A = 30, V_B = 10. -/
theorem C4_concentrated_amended :
    (∀ (rand : ℕ → ℚ) (d : Option Difficulty) (p : Beam.BeamProblem), InRange rand →
      Beam.concentratedAttempt rand d = some p →
      p.b = p.L - p.a ∧
      (p.target = .M_max → p.answer = p.P * p.a * p.b / p.L) ∧
      (p.target = .Va → p.answer = p.P * p.b / p.L) ∧
      (p.target = .Vb → p.answer = p.P * p.a / p.L)) ∧
    roundToOneDecimal (Beam.concentratedRaw .M_max 40 8 2 6) = 60 ∧
    roundToOneDecimal (Beam.concentratedRaw .Va 40 8 2 6) = 30 ∧
    roundToOneDecimal (Beam.concentratedRaw .Vb 40 8 2 6) = 10 := by
  refine ⟨?_, by with_unfolding_all decide, by with_unfolding_all decide,
    by with_unfolding_all decide⟩
  intro rand d p hr hp
  simp only [Beam.concentratedAttempt] at hp
  by_cases hnice : isNiceOneDecimal (Beam.concentratedRawOf rand d) = true
  case neg =>
    rw [if_neg hnice] at hp
    exact absurd hp (by simp)
  case pos =>
    rw [if_pos hnice] at hp
    injection hp with hpe
    subst hpe
    have hL : Beam.concentratedL rand ∈ Beam.L_VALUES :=
      jsPick_mem _ (hr 0).1 (hr 0).2 _ _ (by simp [Beam.L_VALUES])
    have hP : Beam.concentratedP rand ∈ Beam.P_VALUES :=
      jsPick_mem _ (hr 4).1 (hr 4).2 _ _ (by simp [Beam.P_VALUES])
    have ha : Beam.concentratedA rand d (Beam.concentratedL rand) ∈
        Beam.A_BY_L (Beam.concentratedL rand) := concentratedA_mem rand hr d _ hL
    have hexact := concentrated_nice_exact _ hL _ ha _ hP
    have hnice' : isNiceOneDecimal (Beam.concentratedRaw (Beam.pickTargetSimple (rand 5))
        (Beam.concentratedP rand) (Beam.concentratedL rand)
        (Beam.concentratedA rand d (Beam.concentratedL rand))
        (Beam.concentratedL rand - Beam.concentratedA rand d (Beam.concentratedL rand))) =
        true := hnice
    have hans : (Beam.concentratedResult rand d).answer =
        roundToOneDecimal (Beam.concentratedRaw (Beam.pickTargetSimple (rand 5))
          (Beam.concentratedP rand) (Beam.concentratedL rand)
          (Beam.concentratedA rand d (Beam.concentratedL rand))
          (Beam.concentratedL rand - Beam.concentratedA rand d (Beam.concentratedL rand))) :=
      rfl
    refine ⟨rfl, ?_, ?_, ?_⟩
    · intro ht
      have ht' : Beam.pickTargetSimple (rand 5) = ProblemTarget.M_max := ht
      rw [hans, ht']
      rw [ht'] at hnice'
      exact hexact.1 hnice'
    · intro ht
      have ht' : Beam.pickTargetSimple (rand 5) = ProblemTarget.Va := ht
      rw [hans, ht']
      rw [ht'] at hnice'
      exact hexact.2.1 hnice'
    · intro ht
      have ht' : Beam.pickTargetSimple (rand 5) = ProblemTarget.Vb := ht
      rw [hans, ht']
      rw [ht'] at hnice'
      exact hexact.2.2 hnice'

theorem C4_concentrated_amended_witness :
    (Beam.concentratedResult (fun _ => 0) (some .beginner)).answer =
      (Beam.concentratedResult (fun _ => 0) (some .beginner)).P *
        (Beam.concentratedResult (fun _ => 0) (some .beginner)).b /
        (Beam.concentratedResult (fun _ => 0) (some .beginner)).L :=
  (C4_concentrated_amended.1 (fun _ => 0) (some .beginner)
      (Beam.concentratedResult (fun _ => 0) (some .beginner)) (fun _ => by norm_num)
      (by with_unfolding_all decide)).2.2.1 (by with_unfolding_all decide)

theorem C5_buckling_amended_witness :
    Buckling.bucklingLengthAnswer .fixedFree 3 = 2 * 3 ∧
    Buckling.bucklingLoadAnswer .fixedFree =
      1 / (Buckling.GAMMA .fixedFree * Buckling.GAMMA .fixedFree) :=
  ⟨C5_buckling_amended.2.2.2.2.1 3 (by with_unfolding_all decide),
   C5_buckling_amended.2.2.1 .fixedFree (by with_unfolding_all decide)⟩

end InfiniteDrill
